import Mathlib

/-!
Verification development for the ETL-Cycy repository
(etl_package: web scraper, transformations, pipeline, PostgreSQL loader).

The Python source is shallowly embedded: pandas DataFrames become lists of
named columns of optional cells (a missing cell, pandas NaN, is `none`),
HTML documents (after BeautifulSoup parsing, which is an external
collaborator) become lists of table elements, each a list of rows, each row
the list of its cells already-extracted trimmed text (`get_text(strip=True)`
output).  Network fetch plus parse is modelled as an `Except` value handed
to `scrape_cacao_ratings`.
-/

namespace ETL

/-- A cell value of a pandas column.  `str` cells come from scraping;
`num` models numeric dtypes (with exact rationals standing for floats);
`bool` models the boolean dtype produced by `pd.get_dummies`; `date`
models a `datetime64` entry by its calendar components. -/
inductive Val where
  | str (s : String)
  | num (q : ℚ)
  | bool (b : Bool)
  | date (y m d : Int)
deriving DecidableEq

/-- The pandas dtype of a column, as far as the embedded code inspects it:
`obj` (object/category: what `select_dtypes(include=['object','category'])`
selects and `is_numeric_dtype` rejects), `numF` (numeric), `boolean`, and
`dt` (datetime64). -/
inductive Dtype where
  | obj
  | numF
  | boolean
  | dt
deriving DecidableEq

/-- One named pandas column: its label, dtype, and cells (a `none` cell is
a missing value / NaN). -/
structure Col where
  name : String
  dtype : Dtype
  values : List (Option Val)
deriving DecidableEq

/-- A pandas DataFrame, column-major. -/
structure DataFrame where
  cols : List Col
deriving DecidableEq

/-- `pd.DataFrame()`: the empty DataFrame with zero rows and columns. -/
def DataFrame.empty : DataFrame := ⟨[]⟩

/-- The column labels, `df.columns`. -/
def DataFrame.colNames (df : DataFrame) : List String :=
  df.cols.map Col.name

/-- `df.shape[1]`. -/
def DataFrame.ncols (df : DataFrame) : Nat := df.cols.length

/-- `df.shape[0]` (all columns of a well-formed frame have equal length;
we read it off the first column). -/
def DataFrame.nrows (df : DataFrame) : Nat :=
  match df.cols with
  | [] => 0
  | c :: _ => c.values.length

/-- `df.empty`: true iff either axis has length zero. -/
def DataFrame.isEmpty (df : DataFrame) : Bool :=
  df.ncols == 0 || df.nrows == 0

/-- `df.shape[0] * df.shape[1]`, the score used to pick the best table. -/
def DataFrame.area (df : DataFrame) : Nat := df.nrows * df.ncols

/-- `df.iloc[i]`: the cells of row `i` across the columns. -/
def DataFrame.getRow (df : DataFrame) (i : Nat) : List (Option Val) :=
  df.cols.map (fun c => c.values.getD i none)

/-- `pd.DataFrame(rows, columns=headers)` for string-valued rows already
normalized to the header length (cell `j` of row `r` is `r.getD j ""`;
for normalized rows the default is never used). -/
def DataFrame.ofRows (headers : List String) (rows : List (List String)) :
    DataFrame :=
  ⟨headers.enum.map (fun p =>
    ⟨p.2, Dtype.obj, rows.map (fun r => some (Val.str (r.getD p.1 "")))⟩)⟩

/-! ## web_scraper.py -/

/-- A table element of the parsed page: its `tr` rows, each row the list of
trimmed cell texts of its `td`/`th` children. -/
abbrev TableElem := List (List String)

/-- The parsed document, reduced to what `soup.find_all('table')` yields in
document order. -/
abbrev Document := List TableElem

/-- Row normalization, web_scraper.py lines 96-100: pad a short row with
empty strings up to `max_cols`, truncate a long one to `max_cols`. -/
def normalizeRow (row : List String) (max_cols : Nat) : List String :=
  if row.length < max_cols then
    row ++ List.replicate (max_cols - row.length) ""
  else if max_cols < row.length then
    row.take max_cols
  else
    row

/-- Processing of one table element, web_scraper.py lines 72-106: keep the
rows that yielded at least one cell; discard the element if fewer than 2
remain; decide the header (row 0 if all its cells are non-empty strings --
every cell is a string here -- else synthesized `Colonne_<j>` names, with
row 0 kept as data); normalize the data rows to the header length; build
the DataFrame and keep it as a candidate if it is non-empty. -/
def tableToCandidate (table : TableElem) : Option DataFrame :=
  let data := table.filter (fun cells => !cells.isEmpty)
  if data.length < 2 then none
  else
    match data with
    | [] => none
    | row0 :: rest =>
      let headerOk := row0.all (fun h => h.length != 0)
      let headers :=
        if headerOk then row0
        else (List.range row0.length).map (fun j => "Colonne_" ++ toString (j+1))
      let data_rows := if headerOk then rest else row0 :: rest
      let max_cols := headers.length
      let normalized_rows := data_rows.map (fun r => normalizeRow r max_cols)
      let df := DataFrame.ofRows headers normalized_rows
      if df.isEmpty then none else some df

/-- The candidate list built by the loop of web_scraper.py lines 69-106
(elements are processed in document order; a `continue` or a failed
non-empty check contributes nothing). -/
def tableCandidates (doc : Document) : List DataFrame :=
  doc.filterMap tableToCandidate

/-- Python `max(x :: xs, key=key)`: scan keeping the current maximum,
replacing it only on a strictly greater key, so the first maximum wins. -/
def pyMax {α : Type} (key : α → Nat) : α → List α → α
  | x, [] => x
  | x, c :: cs => pyMax key (if key x < key c then c else x) cs

/-- `manual_table_scraping`, web_scraper.py lines 49-114: `None` when the
page has no table element or no candidate qualifies, otherwise the
candidate with the largest `shape[0] * shape[1]`. -/
def manual_table_scraping (doc : Document) : Option DataFrame :=
  if doc.isEmpty then none
  else
    match tableCandidates doc with
    | [] => none
    | c :: cs => some (pyMax DataFrame.area c cs)

/-- The exception raised by the fetch-plus-parse collaborator inside
`scrape_cacao_ratings`: `requests.RequestException` or any other
exception. -/
inductive ScrapeExn where
  | requestException (msg : String)
  | otherException (msg : String)
deriving DecidableEq

/-- `scrape_cacao_ratings`, web_scraper.py lines 12-47, as a function of
the fetch-plus-parse outcome.  Every `except` branch logs and returns
`pd.DataFrame()`, so every path is `.ok`; the result type still has an
error channel to make that observable. -/
def scrape_cacao_ratings (fetched : Except ScrapeExn Document) :
    Except ScrapeExn DataFrame :=
  match fetched with
  | .error _ => .ok DataFrame.empty
  | .ok doc =>
    match manual_table_scraping doc with
    | some df => if !df.isEmpty then .ok df else .ok DataFrame.empty
    | none => .ok DataFrame.empty

/-! ## transform/missing_values.py -/

/-- A per-column strategy entry of the `strategy` dict: a string name or a
number (`isinstance(col_strategy, (int, float))`). -/
inductive StrategyV where
  | str (s : String)
  | num (q : ℚ)
deriving DecidableEq

/-- Insertion of `v` into a list sorted by the Boolean order `le`. -/
def insertLe {α : Type} (le : α → α → Bool) (v : α) : List α → List α
  | [] => [v]
  | w :: ws => if le v w then v :: w :: ws else w :: insertLe le v ws

/-- Insertion sort by the Boolean order `le`. -/
def sortLe {α : Type} (le : α → α → Bool) : List α → List α
  | [] => []
  | v :: vs => insertLe le v (sortLe le vs)

/-- Lexicographic order on character lists by code point. -/
def charsLe : List Char → List Char → Bool
  | [], _ => true
  | _ :: _, [] => false
  | a :: as, b :: bs =>
    if a.toNat < b.toNat then true
    else if b.toNat < a.toNat then false
    else charsLe as bs

/-- A total order on cell values used where pandas sorts them
(`Series.mode`, `get_dummies` categories).  A real pandas column is
homogeneous, so only the within-constructor orders are ever exercised;
across constructors we order by an arbitrary fixed rank. -/
def valLe (a b : Val) : Bool :=
  match a, b with
  | .num p, .num q => decide (p ≤ q)
  | .str s, .str t => charsLe s.toList t.toList
  | .bool x, .bool y => !x || y
  | .date y1 m1 d1, .date y2 m2 d2 =>
    decide (y1 < y2 ∨ (y1 = y2 ∧ (m1 < m2 ∨ (m1 = m2 ∧ d1 ≤ d2))))
  | .num _, _ => true
  | _, .num _ => false
  | .str _, _ => true
  | _, .str _ => false
  | .bool _, _ => true
  | _, .bool _ => false

/-- The cells of the column that are present (pandas operations such as
`mean`, `mode`, `get_dummies` ignore NaN). -/
def colPresent (c : Col) : List Val := c.values.filterMap id

/-- The numeric cells of the column, as rationals. -/
def colNums (c : Col) : List ℚ :=
  c.values.filterMap (fun x =>
    match x with
    | some (.num q) => some q
    | _ => none)

/-- `Series.mean()`: the mean of the present numeric values; NaN (`none`)
for an all-missing column. -/
def seriesMean (c : Col) : Option Val :=
  let ns := colNums c
  if ns.isEmpty then none else some (.num (ns.sum / (ns.length : ℚ)))

/-- `Series.median()`: middle of the sorted present values, or the mean of
the two middles; NaN (`none`) for an all-missing column. -/
def seriesMedian (c : Col) : Option Val :=
  let s := sortLe (fun a b : ℚ => decide (a ≤ b)) (colNums c)
  let n := s.length
  if n = 0 then none
  else if n % 2 = 1 then some (.num (s.getD (n / 2) 0))
  else some (.num ((s.getD (n / 2 - 1) 0 + s.getD (n / 2) 0) / 2))

/-- `Series.mode()[0] if not Series.mode().empty else None`: the most
frequent present value, smallest first on ties (pandas returns the sorted
modes and the code takes index 0). -/
def seriesMode (xs : List Val) : Option Val :=
  match sortLe valLe xs.dedup with
  | [] => none
  | c :: cs => some (pyMax (fun v => xs.count v) c cs)

/-- `Series.fillna(v)` for a scalar `v`; `v = none` stands for filling
with NaN, which leaves missing cells missing (the `fillna(None)` path the
code could reach on an all-missing column raises in pandas and is likewise
modelled as leaving the cells missing). -/
def fillnaVals (v : Option Val) (xs : List (Option Val)) : List (Option Val) :=
  xs.map (fun x =>
    match x with
    | some w => some w
    | none => v)

/-- `Series.fillna(method='ffill')`: each missing cell takes the last
preceding present value, if any. -/
def ffillVals : Option Val → List (Option Val) → List (Option Val)
  | _, [] => []
  | last, x :: xs =>
    match x with
    | some v => some v :: ffillVals (some v) xs
    | none => last :: ffillVals last xs

/-- `Series.fillna(method='bfill')`. -/
def bfillVals (xs : List (Option Val)) : List (Option Val) :=
  (ffillVals none xs.reverse).reverse

/-- The per-column body of `impute_missing_values`, missing_values.py
lines 62-84: nothing happens unless the column has a missing value;
otherwise the strategy for this column (or the default) is dispatched
through the elif chain -- note `mean`/`median` on a non-numeric column
fall through to the final mode fallback, exactly as in the source. -/
def imputeColumn (strategy : List (String × StrategyV))
    (default_strategy : StrategyV) (c : Col) : Col :=
  if 0 < c.values.countP (fun x => x.isNone) then
    let col_strategy := (strategy.lookup c.name).getD default_strategy
    if col_strategy = .str "mean" ∧ c.dtype = .numF then
      { c with values := fillnaVals (seriesMean c) c.values }
    else if col_strategy = .str "median" ∧ c.dtype = .numF then
      { c with values := fillnaVals (seriesMedian c) c.values }
    else if col_strategy = .str "mode" then
      { c with values := fillnaVals (seriesMode (colPresent c)) c.values }
    else if col_strategy = .str "ffill" then
      { c with values := ffillVals none c.values }
    else if col_strategy = .str "bfill" then
      { c with values := bfillVals c.values }
    else
      match col_strategy with
      | .num q => { c with values := fillnaVals (some (.num q)) c.values }
      | _ => { c with values := fillnaVals (seriesMode (colPresent c)) c.values }
  else c

/-- `MissingValuesHandler.impute_missing_values`, missing_values.py lines
42-87: column-wise imputation on a copy (`strategy=None` means the empty
dict). -/
def MissingValuesHandler.impute_missing_values (df : DataFrame)
    (strategy : Option (List (String × StrategyV)))
    (default_strategy : StrategyV) : DataFrame :=
  ⟨df.cols.map (imputeColumn (strategy.getD []) default_strategy)⟩

/-! ## transform/encoding.py -/

/-- `str(v)` for naming dummy columns (only string categories arise from
object columns). -/
def valToStr : Val → String
  | .str s => s
  | .num q => toString q
  | .bool b => toString b
  | .date y m d => toString y ++ "-" ++ toString m ++ "-" ++ toString d

/-- `pd.get_dummies(series, prefix=pfx, drop_first=drop_first)`: one
Boolean column per sorted distinct present value (dropping the first
category when asked); a missing cell yields `false` everywhere
(`dummy_na` defaults to False). -/
def get_dummies (series : Col) (pfx : String) (drop_first : Bool) :
    List Col :=
  let cats := sortLe valLe (colPresent series).dedup
  let cats := if drop_first then cats.drop 1 else cats
  cats.map (fun v =>
    ⟨pfx ++ "_" ++ valToStr v, Dtype.boolean,
      series.values.map (fun x => some (Val.bool (x == some v)))⟩)

/-- `DataEncoder.one_hot_encode`, encoding.py lines 18-45: for each
requested column present in the frame (default: the object-dtyped ones),
concatenate its dummies (computed from the original frame) and drop the
column label from the accumulator. -/
def DataEncoder.one_hot_encode (df : DataFrame)
    (columns : Option (List String)) (drop_first : Bool) : DataFrame :=
  let cols := columns.getD
    ((df.cols.filter (fun c => c.dtype = .obj)).map Col.name)
  cols.foldl (fun acc column =>
    if df.colNames.contains column then
      match df.cols.find? (fun c => c.name == column) with
      | some series =>
        let dummies := get_dummies series column drop_first
        ⟨(acc.cols ++ dummies).filter (fun c => !(c.name == column))⟩
      | none => acc
    else acc) df

/-! ## transform/validation.py -/

/-- `DataValidator.validate_data_types`, validation.py lines 18-54,
reduced to the `(valid, errors)` pair the pipeline consults: each expected
column must exist and carry the expected dtype. -/
def DataValidator.validate_data_types (df : DataFrame)
    (expected_types : List (String × Dtype)) : Bool × List String :=
  expected_types.foldl (fun acc p =>
    match df.cols.find? (fun c => c.name == p.1) with
    | none => (false, acc.2 ++ ["Colonne manquante: " ++ p.1])
    | some c =>
      if c.dtype = p.2 then acc
      else (false, acc.2 ++ ["Type incorrect pour " ++ p.1]))
    (true, ([] : List String))

/-! ## transform/feature_engineering.py -/

/-- Days since 1970-01-01 of a proleptic Gregorian date (the standard
civil-from-days integer computation; all divisions below are on
nonnegative operands or match the truncating division the algorithm
assumes). -/
def daysFromCivil (y m d : Int) : Int :=
  let y' := if m ≤ 2 then y - 1 else y
  let era := (if 0 ≤ y' then y' else y' - 399) / 400
  let yoe := y' - era * 400
  let mp := (m + 9) % 12
  let doy := (153 * mp + 2) / 5 + d - 1
  let doe := yoe * 365 + yoe / 4 - yoe / 100 + doy
  era * 146097 + doe - 719468

/-- `Series.dt.dayofweek`: Monday is 0; 1970-01-01 was a Thursday. -/
def pdDayOfWeek (y m d : Int) : Int := (daysFromCivil y m d + 3) % 7

/-- The `YYYY-MM-DD` form accepted by `pd.to_datetime`.  Only this ISO
form of the parser is modelled; the rest of the format zoo of the external
datetime library is out of scope. -/
def parseISODate (s : String) : Option (Int × Int × Int) :=
  match s.splitOn "-" with
  | [ys, ms, ds] =>
    match ys.toNat?, ms.toNat?, ds.toNat? with
    | some y, some m, some d =>
      if 1 ≤ m ∧ m ≤ 12 ∧ 1 ≤ d ∧ d ≤ 31 then
        some ((y : Int), (m : Int), (d : Int))
      else none
    | _, _, _ => none
  | _ => none

/-- `pd.to_datetime` on one cell: NaN becomes NaT, an unparseable or
non-string cell raises (surfaced as `.error`). -/
def cellToDate (x : Option Val) : Except String (Option (Int × Int × Int)) :=
  match x with
  | none => .ok none
  | some (.date y m d) => .ok (some (y, m, d))
  | some (.str s) =>
    match parseISODate s with
    | some t => .ok (some t)
    | none => .error "to_datetime: unparseable string"
  | some _ => .error "to_datetime: unsupported value"

/-- A derived date-feature column named `base_tag`. -/
def mkDateCol (base tag : String) (dty : Dtype) (vals : List (Option Val)) :
    Col :=
  ⟨base ++ "_" ++ tag, dty, vals⟩

/-- `FeatureEngineer.create_date_features`, feature_engineering.py lines
19-48: when the column exists, convert it to datetime (raising on
unparseable cells) and append the six derived columns; otherwise return
the frame unchanged.  `is_weekend` is 0 for a missing date (NaT compares
False under `isin`). -/
def FeatureEngineer.create_date_features (df : DataFrame)
    (date_column : String) : Except String DataFrame :=
  if df.colNames.contains date_column then
    match df.cols.find? (fun c => c.name == date_column) with
    | none => .ok df
    | some c =>
      match c.values.mapM cellToDate with
      | .error e => .error e
      | .ok dates =>
        let conv : Col :=
          ⟨c.name, Dtype.dt,
            dates.map (fun o => o.map (fun t => Val.date t.1 t.2.1 t.2.2))⟩
        let replaced :=
          df.cols.map (fun c0 => if c0.name == date_column then conv else c0)
        let part (f : Int × Int × Int → ℚ) : List (Option Val) :=
          dates.map (fun o => o.map (fun t => Val.num (f t)))
        let weekend : List (Option Val) :=
          dates.map (fun o =>
            some (Val.num
              (match o with
               | some t =>
                 if pdDayOfWeek t.1 t.2.1 t.2.2 = 5 ∨
                    pdDayOfWeek t.1 t.2.1 t.2.2 = 6 then 1 else 0
               | none => 0)))
        .ok ⟨replaced ++
          [mkDateCol date_column "year" Dtype.numF (part (fun t => (t.1 : ℚ))),
           mkDateCol date_column "month" Dtype.numF (part (fun t => (t.2.1 : ℚ))),
           mkDateCol date_column "day" Dtype.numF (part (fun t => (t.2.2 : ℚ))),
           mkDateCol date_column "dayofweek" Dtype.numF
             (part (fun t => (pdDayOfWeek t.1 t.2.1 t.2.2 : ℚ))),
           mkDateCol date_column "quarter" Dtype.numF
             (part (fun t => ((t.2.1 - 1) / 3 + 1 : ℚ))),
           mkDateCol date_column "is_weekend" Dtype.numF weekend]⟩
  else .ok df

/-! ## pipelines/etl_pipeline.py and load/to_postgres.py

Diagnostic strings are kept short and unaccented; only the error kind
matters to the embedded control flow. -/

/-- The `params` dict of one transformation entry; an absent key is
`none` (Python then either uses the callee default or raises a TypeError
for a required positional argument). -/
structure Params where
  strategy : Option (List (String × StrategyV)) := none
  default_strategy : Option StrategyV := none
  columns : Option (List String) := none
  drop_first : Option Bool := none
  expected_types : Option (List (String × Dtype)) := none
  date_column : Option String := none
deriving DecidableEq

/-- One entry of the transformation list: `{'function': ..., 'params': ...}`. -/
structure Transformation where
  function : String
  params : Params := {}
deriving DecidableEq

/-- The exceptions the pipeline methods can raise. -/
inductive PipeError where
  | valueError (msg : String)
  | typeError (msg : String)
  | transformError (msg : String)
  | scrapeError (e : ScrapeExn)
  | dbError (msg : String)
deriving DecidableEq

/-- One iteration of the transformation loop, etl_pipeline.py lines
53-76: dispatch on the function name; `validate_data` only logs its
result; a missing required argument raises a TypeError; an unrecognized
name is logged and skipped. -/
def applyTransformation (df : DataFrame) (t : Transformation) :
    Except PipeError DataFrame :=
  if t.function = "handle_missing_values" then
    .ok (MissingValuesHandler.impute_missing_values df t.params.strategy
      (t.params.default_strategy.getD (.str "mean")))
  else if t.function = "encode_categorical" then
    .ok (DataEncoder.one_hot_encode df t.params.columns
      (t.params.drop_first.getD false))
  else if t.function = "validate_data" then
    match t.params.expected_types with
    | none => .error (.typeError "validate_data_types: expected_types manquant")
    | some et =>
      let _validation := DataValidator.validate_data_types df et
      .ok df
  else if t.function = "create_features" then
    match t.params.date_column with
    | none => .error (.typeError "create_date_features: date_column manquant")
    | some dc =>
      match FeatureEngineer.create_date_features df dc with
      | .ok df2 => .ok df2
      | .error e => .error (.transformError e)
  else
    .ok df

/-- The transformation loop; on an exception the working table keeps the
value it had before the failing step (which the method stored in
`self.transformed_data`). -/
def runTransformations (cur : DataFrame) :
    List Transformation → DataFrame × Option PipeError
  | [] => (cur, none)
  | t :: ts =>
    match applyTransformation cur t with
    | .ok df2 => runTransformations df2 ts
    | .error e => (cur, some e)

/-- The orchestrator state: the two DataFrames held across stages
(`self.loader` is re-created inside `load` and not tracked). -/
structure ETLPipeline where
  raw_data : Option DataFrame := none
  transformed_data : Option DataFrame := none
deriving DecidableEq

/-- A freshly constructed `ETLPipeline()`. -/
def ETLPipeline.init : ETLPipeline := {}

/-- `ETLPipeline.extract`, etl_pipeline.py lines 32-44, as a function of
the fetch-plus-parse outcome handed to the scraper: an unsupported source
raises a ValueError (logged then re-raised); a scraper exception would be
re-raised too (the scraper never raises -- see `scrape_never_raises`). -/
def ETLPipeline.extract (p : ETLPipeline) (source : String)
    (fetched : Except ScrapeExn Document) :
    ETLPipeline × Except PipeError DataFrame :=
  if source = "web_scraping" then
    match scrape_cacao_ratings fetched with
    | .ok df => ({ p with raw_data := some df }, .ok df)
    | .error e => (p, .error (.scrapeError e))
  else (p, .error (.valueError ("Source non supportee: " ++ source)))

/-- `ETLPipeline.transform`, etl_pipeline.py lines 46-82: a
state-precondition ValueError before any data is touched when extract has
not stored data; otherwise the loop over a working copy, storing the last
successful table and re-raising any step exception. -/
def ETLPipeline.transform (p : ETLPipeline)
    (transformations : List Transformation) :
    ETLPipeline × Except PipeError DataFrame :=
  match p.raw_data with
  | none =>
    (p, .error (.valueError "Aucune donnee a transformer. Executez extract() avant."))
  | some raw =>
    match runTransformations raw transformations with
    | (final, none) => ({ p with transformed_data := some final }, .ok final)
    | (last, some e) => ({ p with transformed_data := some last }, .error e)

/-- One destination write performed by `DataFrame.to_sql`. -/
structure DBWrite where
  table_name : String
  if_exists : String
  df : DataFrame
deriving DecidableEq

/-- Whether the external destination accepts connections and writes
(SQLAlchemy outcomes). -/
structure DBEnv where
  connectOk : Bool
  writeOk : Bool
deriving DecidableEq

/-- `PostgreSQLLoader.load_dataframe`, to_postgres.py lines 41-73: an
empty frame is refused (False) before any write is attempted; otherwise
`to_sql` appends to the write log (True) or fails with a logged
SQLAlchemyError (False). -/
def PostgreSQLLoader.load_dataframe (env : DBEnv) (df : DataFrame)
    (table_name : String) (if_exists : String) (db : List DBWrite) :
    Bool × List DBWrite :=
  if df.isEmpty then (false, db)
  else if env.writeOk then (true, db ++ [⟨table_name, if_exists, df⟩])
  else (false, db)

/-- `ETLPipeline.load`, etl_pipeline.py lines 84-108: a
state-precondition ValueError when transform has not stored data; an
unsupported destination raises; constructing `PostgreSQLLoader()`
re-raises a connection failure; otherwise the loader result is returned. -/
def ETLPipeline.load (p : ETLPipeline) (destination : String)
    (table_name if_exists : Option String) (env : DBEnv)
    (db : List DBWrite) :
    ETLPipeline × List DBWrite × Except PipeError Bool :=
  match p.transformed_data with
  | none =>
    (p, db, .error (.valueError "Aucune donnee a charger. Executez transform() avant."))
  | some data =>
    if destination = "postgres" then
      if env.connectOk then
        let r := PostgreSQLLoader.load_dataframe env data
          (table_name.getD "cacao_ratings") (if_exists.getD "replace") db
        (p, r.2, .ok r.1)
      else (p, db, .error (.dbError "Erreur de connexion a PostgreSQL"))
    else (p, db, .error (.valueError ("Destination non supportee: " ++ destination)))

/-- The default transformation list of `run_pipeline`, etl_pipeline.py
lines 120-125. -/
def defaultTransformations : List Transformation :=
  [⟨"handle_missing_values",
     { strategy := some [], default_strategy := some (.str "mean") }⟩,
   ⟨"encode_categorical", { columns := none, drop_first := some true }⟩,
   ⟨"validate_data", {}⟩]

/-- `ETLPipeline.run_pipeline`, etl_pipeline.py lines 110-137: extract,
transform (with the default step list when none is given), load; any
stage exception is caught and turned into an overall False. -/
def ETLPipeline.run_pipeline (p : ETLPipeline) (source : String)
    (transformations : Option (List Transformation)) (destination : String)
    (table_name if_exists : Option String)
    (fetched : Except ScrapeExn Document) (env : DBEnv)
    (db : List DBWrite) : ETLPipeline × List DBWrite × Bool :=
  match p.extract source fetched with
  | (p1, .error _) => (p1, db, false)
  | (p1, .ok _) =>
    let ts := transformations.getD defaultTransformations
    match p1.transform ts with
    | (p2, .error _) => (p2, db, false)
    | (p2, .ok _) =>
      match p2.load destination table_name if_exists env db with
      | (p3, db', .ok success) => (p3, db', success)
      | (p3, db', .error _) => (p3, db', false)

/-! ## Helper lemmas -/

/-- Definitional shape of `scrape_cacao_ratings` on a successful fetch. -/
theorem scrape_ok_eq (doc : Document) :
    scrape_cacao_ratings (.ok doc) =
      (match manual_table_scraping doc with
       | some df =>
         if !df.isEmpty then Except.ok df else Except.ok DataFrame.empty
       | none => Except.ok DataFrame.empty) := rfl

/-- Every path of `scrape_cacao_ratings` returns a DataFrame; no exception
escapes it. -/
theorem scrape_never_raises (fetched : Except ScrapeExn Document) :
    ∃ df, scrape_cacao_ratings fetched = .ok df := by
  rcases fetched with e | doc
  · exact ⟨DataFrame.empty, rfl⟩
  · rw [scrape_ok_eq]
    rcases manual_table_scraping doc with - | df
    · exact ⟨DataFrame.empty, rfl⟩
    · dsimp only
      split
      · exact ⟨df, rfl⟩
      · exact ⟨DataFrame.empty, rfl⟩

/-! ## C4: row normalization -/

/-- C4: normalizing a data row against a header of length `k` always
yields length exactly `k`; a row at least `k` long is truncated to its
first `k` cells, a row at most `k` long is padded at the end with empty
strings. -/
theorem c4_row_normalization (row : List String) (k : Nat) :
    (normalizeRow row k).length = k ∧
    (k ≤ row.length → normalizeRow row k = row.take k) ∧
    (row.length ≤ k →
      normalizeRow row k = row ++ List.replicate (k - row.length) "") := by
  unfold normalizeRow
  refine ⟨?_, ?_, ?_⟩
  · split
    · simp; omega
    · split
      · simp; omega
      · omega
  · intro h
    split
    · omega
    · split
      · rfl
      · have hk : row.length = k := by omega
        rw [← hk, List.take_length]
  · intro h
    split
    · rfl
    · split
      · omega
      · have hk : row.length = k := by omega
        rw [hk]
        simp

/-- C4 witness: the two spec examples, a 1-cell row padded to a 3-column
header and a 4-cell row truncated to it. -/
theorem c4_row_normalization_witness :
    List.length ["x"] ≤ 3 ∧
    normalizeRow ["x"] 3 = ["x", "", ""] ∧
    3 ≤ List.length ["x", "y", "z", "w"] ∧
    normalizeRow ["x", "y", "z", "w"] 3 = ["x", "y", "z"] :=
  ⟨by decide,
   by rw [(c4_row_normalization ["x"] 3).2.2 (by decide)]; decide,
   by decide,
   by rw [(c4_row_normalization ["x", "y", "z", "w"] 3).2.1 (by decide)]; decide⟩

/-! ## C3: behaviour when no candidate qualifies -/

/-- C3 counterexample: on a document with zero table elements the
extraction routine `manual_table_scraping` returns Python `None`
(`none`), which is null, not the empty-table sentinel. -/
theorem c3_counterexample :
    manual_table_scraping [] = none ∧ none ≠ some DataFrame.empty :=
  ⟨rfl, by simp⟩

/-- C3 amended: whenever no table element qualifies as a candidate (in
particular for a document with zero table elements),
`manual_table_scraping` returns `None`; the wrapper
`scrape_cacao_ratings` converts that to the explicit empty-table sentinel
(zero rows, zero columns) and never returns an error. -/
theorem c3_no_candidate_amended (doc : Document)
    (h : tableCandidates doc = []) :
    manual_table_scraping doc = none ∧
    scrape_cacao_ratings (.ok doc) = .ok DataFrame.empty ∧
    DataFrame.empty.nrows = 0 ∧ DataFrame.empty.ncols = 0 := by
  have hm : manual_table_scraping doc = none := by
    unfold manual_table_scraping
    rw [h]
    split <;> rfl
  refine ⟨hm, ?_, rfl, rfl⟩
  rw [scrape_ok_eq, hm]

/-- C3 witness: a document with zero table elements, and one whose only
table element has a single row. -/
theorem c3_no_candidate_amended_witness :
    tableCandidates [] = [] ∧
    manual_table_scraping [] = none ∧
    scrape_cacao_ratings (.ok []) = .ok DataFrame.empty ∧
    tableCandidates [[["a", "b"]]] = [] ∧
    manual_table_scraping [[["a", "b"]]] = none :=
  ⟨rfl,
   (c3_no_candidate_amended [] rfl).1,
   (c3_no_candidate_amended [] rfl).2.1,
   rfl,
   (c3_no_candidate_amended [[["a", "b"]]] rfl).1⟩

/-! ## C5: elements with fewer than 2 non-empty rows -/

/-- C5: a table element whose rows yield fewer than 2 non-empty rows is
discarded (it produces no candidate), and processing continues: the
candidate list of any document containing it equals the candidate list
with the element removed. -/
theorem c5_short_table_discarded (t : TableElem)
    (h : (t.filter (fun r => !r.isEmpty)).length < 2) :
    tableToCandidate t = none ∧
    ∀ pre post : Document,
      tableCandidates (pre ++ t :: post) = tableCandidates (pre ++ post) := by
  have h1 : tableToCandidate t = none := by
    unfold tableToCandidate
    rw [if_pos h]
  refine ⟨h1, ?_⟩
  intro pre post
  simp [tableCandidates, List.filterMap_append, List.filterMap_cons, h1]

/-- C5 witness: a document whose only table element has exactly 1
non-empty row yields no candidate from it, whether alone or among other
elements. -/
theorem c5_short_table_discarded_witness :
    (List.length (List.filter (fun r => !r.isEmpty) [["a", "b"], []]) < 2) ∧
    tableToCandidate [["a", "b"], []] = none ∧
    tableCandidates [[["x", "y"], ["1", "2"]], [["a", "b"], []]] =
      tableCandidates [[["x", "y"], ["1", "2"]]] := by
  have hlt : (List.filter (fun r => !r.isEmpty) [["a", "b"], ([] : List String)]).length < 2 := by
    decide
  refine ⟨hlt, (c5_short_table_discarded _ hlt).1, ?_⟩
  have := (c5_short_table_discarded _ hlt).2 [[["x", "y"], ["1", "2"]]] []
  simpa using this

/-! ## C8: transform before extract -/

/-- C8: calling `transform` on a pipeline whose extract has not stored
data fails with the state-precondition ValueError, and the pipeline state
is returned unchanged. -/
theorem c8_transform_requires_extract (p : ETLPipeline)
    (ts : List Transformation) (h : p.raw_data = none) :
    p.transform ts =
      (p, .error (.valueError
        "Aucune donnee a transformer. Executez extract() avant.")) := by
  unfold ETLPipeline.transform
  rw [h]

/-- C8 witness: a freshly constructed pipeline. -/
theorem c8_transform_requires_extract_witness :
    ETLPipeline.init.raw_data = none ∧
    ETLPipeline.init.transform defaultTransformations =
      (ETLPipeline.init, .error (.valueError
        "Aucune donnee a transformer. Executez extract() avant.")) :=
  ⟨rfl, c8_transform_requires_extract ETLPipeline.init defaultTransformations rfl⟩

/-! ## C2: network / parse failures -/

/-- C2 counterexample: a network failure during fetch is not surfaced; at
a concrete failing fetch the scraper returns the empty DataFrame as a
success, and `ETLPipeline.extract` completes without error. -/
theorem c2_counterexample :
    scrape_cacao_ratings (.error (.requestException "connection timed out")) =
      .ok DataFrame.empty ∧
    (ETLPipeline.init.extract "web_scraping"
      (.error (.requestException "connection timed out"))).2 =
      .ok DataFrame.empty := by
  constructor <;> rfl

/-- C2 amended: a network failure (`requests.RequestException`) or any
other fetch/parse exception is caught inside `scrape_cacao_ratings`,
logged, and converted into the empty DataFrame; no error kind reaches the
caller, `ETLPipeline.extract` stores the empty table and reports success,
and the scraper never returns an error on any input. -/
theorem c2_errors_swallowed_amended (e : ScrapeExn) (p : ETLPipeline) :
    scrape_cacao_ratings (.error e) = .ok DataFrame.empty ∧
    p.extract "web_scraping" (.error e) =
      ({ p with raw_data := some DataFrame.empty }, .ok DataFrame.empty) ∧
    ∀ fetched, ∃ df, scrape_cacao_ratings fetched = .ok df :=
  ⟨rfl, rfl, scrape_never_raises⟩

/-! ## C9: unrecognized transformation steps -/

/-- C9: a transformation step whose name is none of the four recognized
operations leaves the table unchanged and is skipped: removing it from
any position of the step list does not change the result of the
transformation loop. -/
theorem c9_unknown_step_skipped (df : DataFrame) (nm : String) (ps : Params)
    (h1 : nm ≠ "handle_missing_values") (h2 : nm ≠ "encode_categorical")
    (h3 : nm ≠ "validate_data") (h4 : nm ≠ "create_features") :
    applyTransformation df ⟨nm, ps⟩ = .ok df ∧
    ∀ pre post : List Transformation,
      runTransformations df (pre ++ ⟨nm, ps⟩ :: post) =
        runTransformations df (pre ++ post) := by
  have ha : ∀ d : DataFrame, applyTransformation d ⟨nm, ps⟩ = .ok d := by
    intro d
    simp [applyTransformation, h1, h2, h3, h4]
  refine ⟨ha df, ?_⟩
  intro pre post
  induction pre generalizing df with
  | nil => simp [runTransformations, ha df]
  | cons t ts ih =>
    simp only [List.cons_append, runTransformations]
    cases h : applyTransformation df t with
    | ok d2 => exact ih d2
    | error e => rfl

/-- C9 witness: an unknown step between two recognized imputation steps. -/
theorem c9_unknown_step_skipped_witness :
    applyTransformation DataFrame.empty ⟨"normalize_text", {}⟩ =
      .ok DataFrame.empty ∧
    runTransformations DataFrame.empty
      [⟨"handle_missing_values", {}⟩, ⟨"normalize_text", {}⟩,
       ⟨"encode_categorical", {}⟩] =
    runTransformations DataFrame.empty
      [⟨"handle_missing_values", {}⟩, ⟨"encode_categorical", {}⟩] := by
  have h := c9_unknown_step_skipped DataFrame.empty "normalize_text" {}
    (by decide) (by decide) (by decide) (by decide)
  exact ⟨h.1, h.2 [⟨"handle_missing_values", {}⟩] [⟨"encode_categorical", {}⟩]⟩

/-! ## C7: idempotence of impute_missing_values -/

/-- C7: on a table with no remaining missing values,
`impute_missing_values` is the identity, hence applying it twice equals
applying it once. -/
theorem c7_impute_idempotent (df : DataFrame)
    (strategy : Option (List (String × StrategyV))) (ds : StrategyV)
    (h : ∀ c ∈ df.cols, ∀ x ∈ c.values, x ≠ none) :
    MissingValuesHandler.impute_missing_values df strategy ds = df ∧
    MissingValuesHandler.impute_missing_values
        (MissingValuesHandler.impute_missing_values df strategy ds)
        strategy ds =
      MissingValuesHandler.impute_missing_values df strategy ds := by
  have h1 : MissingValuesHandler.impute_missing_values df strategy ds = df := by
    unfold MissingValuesHandler.impute_missing_values
    have hcols : df.cols.map (imputeColumn (strategy.getD []) ds) = df.cols := by
      have hfix : ∀ c ∈ df.cols, imputeColumn (strategy.getD []) ds c = c := by
        intro c hc
        have hcount : c.values.countP (fun x => x.isNone) = 0 :=
          List.countP_eq_zero.mpr (fun a ha hna =>
            h c hc a ha (Option.isNone_iff_eq_none.mp hna))
        unfold imputeColumn
        simp [hcount]
      rw [List.map_congr_left hfix]
      exact List.map_id df.cols
    rw [hcols]
  refine ⟨h1, ?_⟩
  rw [h1]
  exact h1

/-- C7 witness: a two-column table (one numeric, one textual) with every
cell present. -/
theorem c7_impute_idempotent_witness :
    (∀ c ∈ (DataFrame.mk
        [⟨"rating", Dtype.numF, [some (Val.num 1), some (Val.num 2)]⟩,
         ⟨"origin", Dtype.obj, [some (Val.str "a"), some (Val.str "b")]⟩]).cols,
      ∀ x ∈ c.values, x ≠ none) ∧
    MissingValuesHandler.impute_missing_values
        (DataFrame.mk
          [⟨"rating", Dtype.numF, [some (Val.num 1), some (Val.num 2)]⟩,
           ⟨"origin", Dtype.obj, [some (Val.str "a"), some (Val.str "b")]⟩])
        (some []) (.str "mean") =
      DataFrame.mk
        [⟨"rating", Dtype.numF, [some (Val.num 1), some (Val.num 2)]⟩,
         ⟨"origin", Dtype.obj, [some (Val.str "a"), some (Val.str "b")]⟩] :=
  ⟨by decide,
   (c7_impute_idempotent _ (some []) (.str "mean") (by decide)).1⟩

/-! ## DataFrame.ofRows observers -/

theorem ofRows_colNames (hs : List String) (rows : List (List String)) :
    (DataFrame.ofRows hs rows).colNames = hs := by
  simp only [DataFrame.ofRows, DataFrame.colNames, List.map_map]
  exact List.enum_map_snd hs

theorem ofRows_ncols (hs : List String) (rows : List (List String)) :
    (DataFrame.ofRows hs rows).ncols = hs.length := by
  simp [DataFrame.ofRows, DataFrame.ncols]

theorem ofRows_nrows (hs : List String) (rows : List (List String))
    (hne : hs ≠ []) :
    (DataFrame.ofRows hs rows).nrows = rows.length := by
  cases hs with
  | nil => exact absurd rfl hne
  | cons h0 hs' =>
    simp [DataFrame.ofRows, DataFrame.nrows, List.enum_cons]

theorem range_map_getD {α : Type} (l : List α) (d : α) :
    (List.range l.length).map (fun j => l.getD j d) = l := by
  induction l with
  | nil => rfl
  | cons a t ih =>
    rw [List.length_cons, List.range_succ_eq_map, List.map_cons, List.map_map]
    congr 1

theorem enum_map_fst_fun {α β : Type} (l : List α) (g : Nat → β) :
    l.enum.map (fun p => g p.1) = (List.range l.length).map g := by
  rw [List.enum_eq_zip_range]
  have : (fun p : Nat × α => g p.1) = g ∘ Prod.fst := rfl
  rw [this, ← List.map_map, List.map_fst_zip]
  simp

theorem ofRows_getRow_zero (hs : List String) (r : List String)
    (rs : List (List String)) :
    (DataFrame.ofRows hs (r :: rs)).getRow 0 =
      (List.range hs.length).map (fun j => some (Val.str (r.getD j ""))) := by
  have h1 : (DataFrame.ofRows hs (r :: rs)).getRow 0 =
      hs.enum.map (fun p => some (Val.str (r.getD p.1 ""))) := by
    simp [DataFrame.ofRows, DataFrame.getRow, List.map_map, Function.comp]
  rw [h1]
  exact enum_map_fst_fun hs (fun j => some (Val.str (r.getD j "")))

/-- Reading off a full string row through `getD` recovers the row. -/
theorem map_getD_str (row : List String) :
    (List.range row.length).map (fun j => some (Val.str (row.getD j ""))) =
      row.map (fun s => some (Val.str s)) := by
  have h : (fun j => some (Val.str (row.getD j ""))) =
      ((fun s => some (Val.str s)) ∘ (fun j => row.getD j "")) := rfl
  rw [h, ← List.map_map, range_map_getD]

/-- Normalizing a row to its own length is the identity. -/
theorem normalizeRow_self (row : List String) :
    normalizeRow row row.length = row := by
  unfold normalizeRow
  simp

/-! ## C6: header decision -/

/-- C6 counterexample: when row 0 has an empty cell, the synthesized
positional header names are `Colonne_1..Colonne_k` (French), not
`Column_1..Column_k` as the claim states. -/
theorem c6_counterexample :
    (tableToCandidate [["", ""], ["a", "b"]]).map DataFrame.colNames =
      some ["Colonne_1", "Colonne_2"] ∧
    (tableToCandidate [["", ""], ["a", "b"]]).map DataFrame.colNames ≠
      some ["Column_1", "Column_2"] := by
  constructor
  · rfl
  · decide

/-- C6 amended: for a candidate table (at least 2 non-empty rows kept, of
which `row0` is the first), if every cell of row 0 is a non-empty string
then row 0 becomes the header and the remaining rows the data; otherwise
positional header names `Colonne_1..Colonne_k` (k = length of row 0) are
synthesized and row 0 is kept as the first data row. -/
theorem c6_header_decision (t : TableElem) (row0 : List String)
    (rest : List (List String))
    (hdata : t.filter (fun r => !r.isEmpty) = row0 :: rest)
    (hlen : 2 ≤ (t.filter (fun r => !r.isEmpty)).length) :
    ∃ df, tableToCandidate t = some df ∧
      (row0.all (fun h => h.length != 0) = true →
        df.colNames = row0 ∧ df.nrows = rest.length) ∧
      (row0.all (fun h => h.length != 0) = false →
        df.colNames =
          (List.range row0.length).map (fun j => "Colonne_" ++ toString (j+1)) ∧
        df.nrows = rest.length + 1 ∧
        df.getRow 0 = row0.map (fun s => some (Val.str s))) := by
  have hrow0 : row0 ∈ t.filter (fun r => !r.isEmpty) := by
    rw [hdata]; exact List.mem_cons_self _ _
  have hrow0ne : row0 ≠ [] := by
    have := (List.mem_filter.mp hrow0).2
    simp only [Bool.not_eq_true'] at this
    exact fun hnil => by simp [hnil] at this
  have hrow0len : row0.length ≠ 0 := fun h0 => hrow0ne (List.length_eq_zero.mp h0)
  have hrestlen : 2 ≤ (row0 :: rest).length := hdata ▸ hlen
  have hrestne : rest ≠ [] := by
    intro hnil
    rw [hnil] at hrestlen
    simp at hrestlen
  unfold tableToCandidate
  rw [hdata]
  rw [if_neg (by omega)]
  by_cases hh : row0.all (fun h => h.length != 0) = true
  · -- header branch
    simp only [hh, if_true]
    have hempty : (DataFrame.ofRows row0
        (List.map (fun r => normalizeRow r row0.length) rest)).isEmpty = false := by
      unfold DataFrame.isEmpty
      rw [ofRows_nrows _ _ hrow0ne, ofRows_ncols]
      simp only [List.length_map, Bool.or_eq_false_iff, beq_eq_false_iff_ne, ne_eq]
      exact ⟨hrow0len, fun h0 => hrestne (List.length_eq_zero.mp h0)⟩
    rw [hempty]
    simp only [Bool.false_eq_true, if_false]
    refine ⟨_, rfl, fun _ => ⟨ofRows_colNames _ _, ?_⟩,
      fun habs => absurd habs (by simp)⟩
    rw [ofRows_nrows _ _ hrow0ne, List.length_map]
  · -- fallback branch
    rw [Bool.not_eq_true] at hh
    simp only [hh, Bool.false_eq_true, if_false]
    simp only [List.length_map, List.length_range, List.map_cons, normalizeRow_self]
    have hsne : (List.map (fun j => "Colonne_" ++ toString (j + 1))
        (List.range row0.length)) ≠ [] := by
      intro h0
      have := congrArg List.length h0
      simp at this
      exact hrow0ne this
    have hempty : (DataFrame.ofRows
        (List.map (fun j => "Colonne_" ++ toString (j + 1)) (List.range row0.length))
        (row0 :: List.map (fun r => normalizeRow r row0.length) rest)).isEmpty
        = false := by
      unfold DataFrame.isEmpty
      rw [ofRows_nrows _ _ hsne, ofRows_ncols]
      simp only [List.length_map, List.length_range, List.length_cons,
        Bool.or_eq_false_iff, beq_eq_false_iff_ne, ne_eq]
      exact ⟨hrow0len, Nat.succ_ne_zero _⟩
    rw [hempty]
    simp only [Bool.false_eq_true, if_false]
    refine ⟨_, rfl, fun habs => absurd habs (by simp), fun _ => ⟨?_, ?_, ?_⟩⟩
    · rw [ofRows_colNames]
    · rw [ofRows_nrows _ _ hsne, List.length_cons, List.length_map]
    · rw [ofRows_getRow_zero]
      simp only [List.length_map, List.length_range]
      exact map_getD_str row0

/-- C6 witness: a table whose row 0 has empty cells takes the synthesized
`Colonne_` header branch with row 0 kept as data, and a table with a
fully non-empty row 0 takes the header branch. -/
theorem c6_header_decision_witness :
    (List.filter (fun r => !r.isEmpty) [["", ""], ["a", "b"]] =
      ["", ""] :: [["a", "b"]]) ∧
    (∃ df, tableToCandidate [["", ""], ["a", "b"]] = some df ∧
      df.colNames = ["Colonne_1", "Colonne_2"] ∧ df.nrows = 2 ∧
      df.getRow 0 = [some (Val.str ""), some (Val.str "")]) ∧
    (∃ df, tableToCandidate [["A", "B"], ["1", "2"], ["3", "4"]] = some df ∧
      df.colNames = ["A", "B"] ∧ df.nrows = 2) := by
  refine ⟨rfl, ?_, ?_⟩
  · obtain ⟨df, h1, -, hF⟩ :=
      c6_header_decision [["", ""], ["a", "b"]] ["", ""] [["a", "b"]]
        rfl (by decide)
    obtain ⟨hn, hr, hg⟩ := hF (by decide)
    exact ⟨df, h1, by rw [hn]; rfl, by rw [hr]; rfl, by rw [hg]; rfl⟩
  · obtain ⟨df, h1, hT, -⟩ :=
      c6_header_decision [["A", "B"], ["1", "2"], ["3", "4"]] ["A", "B"]
        [["1", "2"], ["3", "4"]] rfl (by decide)
    obtain ⟨hn, hr⟩ := hT (by decide)
    exact ⟨df, h1, hn, by rw [hr]; rfl⟩

/-! ## Python max semantics -/

theorem pyMax_eq_or_mem {α : Type} (key : α → Nat) :
    ∀ (xs : List α) (x : α), pyMax key x xs = x ∨ pyMax key x xs ∈ xs := by
  intro xs
  induction xs with
  | nil => intro x; exact Or.inl rfl
  | cons c cs ih =>
    intro x
    rw [pyMax]
    rcases ih (if key x < key c then c else x) with h | h
    · rw [h]
      split
      · exact Or.inr (List.mem_cons_self _ _)
      · exact Or.inl rfl
    · exact Or.inr (List.mem_cons_of_mem _ h)

theorem pyMax_key_le {α : Type} (key : α → Nat) :
    ∀ (xs : List α) (x y : α), (y = x ∨ y ∈ xs) →
      key y ≤ key (pyMax key x xs) := by
  intro xs
  induction xs with
  | nil =>
    rintro x y (rfl | hy)
    · exact le_refl _
    · cases hy
  | cons c cs ih =>
    intro x y hy
    rw [pyMax]
    have hx : key x ≤ key (pyMax key (if key x < key c then c else x) cs) := by
      refine le_trans ?_ (ih _ _ (Or.inl rfl))
      split
      · omega
      · exact le_refl _
    have hc : key c ≤ key (pyMax key (if key x < key c then c else x) cs) := by
      refine le_trans ?_ (ih _ _ (Or.inl rfl))
      split
      · exact le_refl _
      · omega
    rcases hy with rfl | hy
    · exact hx
    · rcases List.mem_cons.mp hy with rfl | hy
      · exact hc
      · exact ih _ _ (Or.inr hy)

/-- The element Python `max` returns is the first one achieving the
maximal key: everything before it in the scanned list has a strictly
smaller key. -/
theorem pyMax_first {α : Type} (key : α → Nat) :
    ∀ (xs : List α) (x : α), ∃ pre post,
      x :: xs = pre ++ pyMax key x xs :: post ∧
      ∀ y ∈ pre, key y < key (pyMax key x xs) := by
  intro xs
  induction xs with
  | nil => intro x; exact ⟨[], [], rfl, by simp⟩
  | cons c cs ih =>
    intro x
    rw [pyMax]
    by_cases h : key x < key c
    · rw [if_pos h]
      obtain ⟨pre, post, heq, hlt⟩ := ih c
      refine ⟨x :: pre, post, by rw [List.cons_append, ← heq], ?_⟩
      intro y hy
      rcases List.mem_cons.mp hy with rfl | hy
      · exact lt_of_lt_of_le h (pyMax_key_le key cs c c (Or.inl rfl))
      · exact hlt y hy
    · rw [if_neg h]
      obtain ⟨pre, post, heq, hlt⟩ := ih x
      cases pre with
      | nil =>
        simp only [List.nil_append] at heq
        have hx : pyMax key x cs = x := (List.cons.injEq _ _ _ _ ▸ heq).1.symm
        refine ⟨[], c :: cs, ?_, by simp⟩
        rw [hx]
        rfl
      | cons z pre' =>
        rw [List.cons_append] at heq
        have hz : x = z ∧ cs = pre' ++ pyMax key x cs :: post :=
          (List.cons.injEq _ _ _ _ ▸ heq).imp id id
        refine ⟨x :: c :: pre', post, ?_, ?_⟩
        · rw [List.cons_append, List.cons_append, ← hz.2]
        · intro y hy
          have hxlt : key x < key (pyMax key x cs) := by
            refine hlt x ?_
            rw [← hz.1]
            exact List.mem_cons_self _ _
          rcases List.mem_cons.mp hy with rfl | hy
          · exact hxlt
          · rcases List.mem_cons.mp hy with rfl | hy
            · omega
            · refine hlt y ?_
              exact List.mem_cons_of_mem _ hy

/-! ## C1: best-table selection -/

/-- C1: whenever the candidate set is non-empty, `manual_table_scraping`
returns a candidate: it belongs to the candidate list, its
`rows * columns` area is maximal, and every candidate seen before it in
document order has a strictly smaller area (first-seen tie-breaking). -/
theorem c1_best_table (doc : Document) (h : tableCandidates doc ≠ []) :
    ∃ best, manual_table_scraping doc = some best ∧
      best ∈ tableCandidates doc ∧
      (∀ d ∈ tableCandidates doc, d.area ≤ best.area) ∧
      ∃ pre post, tableCandidates doc = pre ++ best :: post ∧
        ∀ d ∈ pre, d.area < best.area := by
  have hdoc : ¬doc.isEmpty = true := by
    intro hd
    apply h
    rw [List.isEmpty_iff] at hd
    rw [hd]
    rfl
  obtain ⟨c, cs, hcc⟩ : ∃ c cs, tableCandidates doc = c :: cs := by
    cases hc : tableCandidates doc with
    | nil => exact absurd hc h
    | cons c cs => exact ⟨c, cs, rfl⟩
  have hm : manual_table_scraping doc = some (pyMax DataFrame.area c cs) := by
    unfold manual_table_scraping
    rw [if_neg hdoc, hcc]
  refine ⟨pyMax DataFrame.area c cs, hm, ?_, ?_, ?_⟩
  · rw [hcc]
    rcases pyMax_eq_or_mem DataFrame.area cs c with he | hmem
    · rw [he]; exact List.mem_cons_self _ _
    · exact List.mem_cons_of_mem _ hmem
  · rw [hcc]
    intro d hd
    rcases List.mem_cons.mp hd with rfl | hd
    · exact pyMax_key_le _ cs d d (Or.inl rfl)
    · exact pyMax_key_le _ cs c d (Or.inr hd)
  · rw [hcc]
    exact pyMax_first _ cs c

/-- C1 witness: a document with a 3x2 candidate and a 10x5 candidate
(areas 6 and 50); whichever order they appear in, the returned table is
the 5-column one, and the generic selection theorem applies. -/
theorem c1_best_table_witness :
    (tableCandidates [List.replicate 4 ["a", "b"],
        List.replicate 11 ["a", "b", "c", "d", "e"]] ≠ []) ∧
    (manual_table_scraping [List.replicate 4 ["a", "b"],
        List.replicate 11 ["a", "b", "c", "d", "e"]]).map DataFrame.area =
      some 50 ∧
    (manual_table_scraping [List.replicate 11 ["a", "b", "c", "d", "e"],
        List.replicate 4 ["a", "b"]]).map DataFrame.area = some 50 ∧
    (∃ best, manual_table_scraping [List.replicate 4 ["a", "b"],
        List.replicate 11 ["a", "b", "c", "d", "e"]] = some best ∧
      best ∈ tableCandidates [List.replicate 4 ["a", "b"],
        List.replicate 11 ["a", "b", "c", "d", "e"]] ∧
      (∀ d ∈ tableCandidates [List.replicate 4 ["a", "b"],
          List.replicate 11 ["a", "b", "c", "d", "e"]],
        d.area ≤ best.area) ∧
      ∃ pre post, tableCandidates [List.replicate 4 ["a", "b"],
          List.replicate 11 ["a", "b", "c", "d", "e"]] =
          pre ++ best :: post ∧
        ∀ d ∈ pre, d.area < best.area) :=
  ⟨by decide, by decide, by decide, c1_best_table _ (by decide)⟩

/-! ## C10: empty table at the load stage -/

/-- A fold whose body always returns its accumulator is the identity. -/
theorem foldl_const {α β : Type} (f : α → β → α) (hf : ∀ x b, f x b = x) :
    ∀ (l : List β) (a : α), l.foldl f a = a := by
  intro l
  induction l with
  | nil => intro a; rfl
  | cons b bs ih => intro a; rw [List.foldl_cons, hf]; exact ih a

/-- `one_hot_encode` leaves the 0x0 frame unchanged: no column label is
contained in an empty frame. -/
theorem one_hot_encode_empty (columns : Option (List String))
    (drop_first : Bool) :
    DataEncoder.one_hot_encode DataFrame.empty columns drop_first =
      DataFrame.empty := by
  unfold DataEncoder.one_hot_encode
  exact foldl_const _ (fun x b => rfl) _ _

/-- `impute_missing_values` leaves the 0x0 frame unchanged. -/
theorem impute_missing_values_empty
    (strategy : Option (List (String × StrategyV))) (ds : StrategyV) :
    MissingValuesHandler.impute_missing_values DataFrame.empty strategy ds =
      DataFrame.empty := rfl

/-- `create_date_features` leaves the 0x0 frame unchanged: the date column
cannot be present. -/
theorem create_date_features_empty (dc : String) :
    FeatureEngineer.create_date_features DataFrame.empty dc =
      .ok DataFrame.empty := rfl

/-- Every transformation step maps the 0x0 frame to itself or raises. -/
theorem applyTransformation_empty (t : Transformation) :
    applyTransformation DataFrame.empty t = .ok DataFrame.empty ∨
    ∃ e, applyTransformation DataFrame.empty t = .error e := by
  unfold applyTransformation
  split
  · exact Or.inl (by rw [impute_missing_values_empty])
  · split
    · exact Or.inl (by rw [one_hot_encode_empty])
    · split
      · cases t.params.expected_types with
        | none => exact Or.inr ⟨_, rfl⟩
        | some et => exact Or.inl rfl
      · split
        · cases t.params.date_column with
          | none => exact Or.inr ⟨_, rfl⟩
          | some dc => exact Or.inl rfl
        · exact Or.inl rfl

/-- The transformation loop keeps the 0x0 frame as the working table,
whether it completes or raises. -/
theorem runTransformations_empty (ts : List Transformation) :
    (runTransformations DataFrame.empty ts).1 = DataFrame.empty := by
  induction ts with
  | nil => rfl
  | cons t ts ih =>
    rw [runTransformations]
    rcases applyTransformation_empty t with h | ⟨e, h⟩
    · rw [h]; exact ih
    · rw [h]

/-- An empty frame is refused by the loader before any write. -/
theorem load_dataframe_isEmpty (env : DBEnv) (df : DataFrame)
    (tname mode : String) (db : List DBWrite) (h : df.isEmpty = true) :
    PostgreSQLLoader.load_dataframe env df tname mode db = (false, db) := by
  unfold PostgreSQLLoader.load_dataframe
  rw [if_pos h]

/-- C10: a table with zero rows makes `load_dataframe` return False
without attempting any write (the write log is unchanged), and a pipeline
run whose extraction produced the empty table reports overall failure and
writes nothing, whatever the steps, destination and database behaviour. -/
theorem c10_empty_never_loaded :
    (∀ (env : DBEnv) (df : DataFrame) (tname mode : String)
       (db : List DBWrite), df.nrows = 0 →
      PostgreSQLLoader.load_dataframe env df tname mode db = (false, db)) ∧
    (∀ (p : ETLPipeline) (source : String)
       (ts : Option (List Transformation)) (dest : String)
       (tnm ife : Option String) (fetched : Except ScrapeExn Document)
       (env : DBEnv) (db : List DBWrite),
      scrape_cacao_ratings fetched = .ok DataFrame.empty →
      (p.run_pipeline source ts dest tnm ife fetched env db).2.2 = false ∧
      (p.run_pipeline source ts dest tnm ife fetched env db).2.1 = db) := by
  constructor
  · intro env df tname mode db h0
    refine load_dataframe_isEmpty env df tname mode db ?_
    unfold DataFrame.isEmpty
    rw [h0]
    simp
  · intro p source ts dest tnm ife fetched env db hs
    unfold ETLPipeline.run_pipeline
    by_cases hsrc : source = "web_scraping"
    · have hex : p.extract source fetched =
          ((⟨some DataFrame.empty, p.transformed_data⟩ : ETLPipeline),
            .ok DataFrame.empty) := by
        unfold ETLPipeline.extract
        rw [if_pos hsrc, hs]
      rw [hex]
      dsimp only
      rcases hrt : runTransformations DataFrame.empty
          (ts.getD defaultTransformations) with ⟨d, err⟩
      have hd : d = DataFrame.empty := by
        have h1 := runTransformations_empty (ts.getD defaultTransformations)
        rw [hrt] at h1
        exact h1
      subst hd
      have htrbase : (⟨some DataFrame.empty, p.transformed_data⟩ :
          ETLPipeline).transform (ts.getD defaultTransformations) =
          (match runTransformations DataFrame.empty
              (ts.getD defaultTransformations) with
           | (final, none) =>
             ((⟨some DataFrame.empty, some final⟩ : ETLPipeline), .ok final)
           | (last, some e) =>
             ((⟨some DataFrame.empty, some last⟩ : ETLPipeline), .error e)) := rfl
      cases err with
      | none =>
        have htr : (⟨some DataFrame.empty, p.transformed_data⟩ :
            ETLPipeline).transform (ts.getD defaultTransformations) =
            ((⟨some DataFrame.empty, some DataFrame.empty⟩ : ETLPipeline),
              .ok DataFrame.empty) := by
          rw [htrbase, hrt]
        rw [htr]
        dsimp only
        have hld : (⟨some DataFrame.empty, some DataFrame.empty⟩ :
            ETLPipeline).load dest tnm ife env db =
              ((⟨some DataFrame.empty, some DataFrame.empty⟩ : ETLPipeline), db,
                if dest = "postgres" then
                  if env.connectOk then (.ok false : Except PipeError Bool)
                  else .error (.dbError "Erreur de connexion a PostgreSQL")
                else .error (.valueError ("Destination non supportee: " ++ dest))) := by
          unfold ETLPipeline.load
          dsimp only
          by_cases hdest : dest = "postgres"
          · rw [if_pos hdest, if_pos hdest]
            cases hco : env.connectOk with
            | true =>
              rw [if_pos rfl, if_pos rfl,
                load_dataframe_isEmpty env DataFrame.empty _ _ db rfl]
            | false =>
              rw [if_neg Bool.false_ne_true, if_neg Bool.false_ne_true]
          · rw [if_neg hdest, if_neg hdest]
        rw [hld]
        by_cases hdest : dest = "postgres"
        · rw [if_pos hdest]
          cases hco : env.connectOk with
          | true => rw [if_pos rfl]; exact ⟨rfl, rfl⟩
          | false => rw [if_neg Bool.false_ne_true]; exact ⟨rfl, rfl⟩
        · rw [if_neg hdest]
          exact ⟨rfl, rfl⟩
      | some e =>
        have htr : (⟨some DataFrame.empty, p.transformed_data⟩ :
            ETLPipeline).transform (ts.getD defaultTransformations) =
            ((⟨some DataFrame.empty, some DataFrame.empty⟩ : ETLPipeline),
              .error e) := by
          rw [htrbase, hrt]
        rw [htr]
        exact ⟨rfl, rfl⟩
    · have hex : p.extract source fetched =
          (p, .error (.valueError ("Source non supportee: " ++ source))) := by
        unfold ETLPipeline.extract
        rw [if_neg hsrc]
      rw [hex]
      exact ⟨rfl, rfl⟩

/-- C10 witness: a one-column zero-row frame is refused by the loader,
and a run whose fetch failed (hence whose extraction stored the empty
table) reports failure with an unchanged write log. -/
theorem c10_empty_never_loaded_witness :
    ((DataFrame.mk [⟨"a", Dtype.obj, []⟩]).nrows = 0 ∧
      PostgreSQLLoader.load_dataframe ⟨true, true⟩
        (DataFrame.mk [⟨"a", Dtype.obj, []⟩]) "cacao" "replace" [] =
        (false, [])) ∧
    (scrape_cacao_ratings (.error (.requestException "timeout")) =
        .ok DataFrame.empty ∧
      (ETLPipeline.init.run_pipeline "web_scraping" none "postgres" none none
        (.error (.requestException "timeout")) ⟨true, true⟩ []).2.2 = false ∧
      (ETLPipeline.init.run_pipeline "web_scraping" none "postgres" none none
        (.error (.requestException "timeout")) ⟨true, true⟩ []).2.1 = []) :=
  ⟨⟨rfl, c10_empty_never_loaded.1 ⟨true, true⟩ _ "cacao" "replace" [] rfl⟩,
   ⟨rfl,
    (c10_empty_never_loaded.2 ETLPipeline.init "web_scraping" none "postgres"
      none none (.error (.requestException "timeout")) ⟨true, true⟩ [] rfl).1,
    (c10_empty_never_loaded.2 ETLPipeline.init "web_scraping" none "postgres"
      none none (.error (.requestException "timeout")) ⟨true, true⟩ [] rfl).2⟩⟩

end ETL
